import Mathlib

/-!
Verification of the discv5 orchestration core against its design spec.

The development shallowly embeds the sampled sources:
* `src/socket/recv.rs` — the receive pipeline (`RecvHandler`, `handle_inbound`, `start`).
  The packet filter (`filter.rs`) and the packet codec (`packet.rs`) are outside the
  sampled sources, so `initial_pass`, `final_pass` and `Packet::decode` appear as
  abstract function parameters: every theorem about the pipeline's control flow holds
  for all of their behaviours.
* `src/error.rs` — the error enums, embedded constructor-for-constructor.
* `src/service/test.rs` — the service-loop test scenario; the service loop itself
  (`service.rs`) is not among the sampled sources and is modelled from the spec.

Machine integers (`usize`, `u64`) are modelled as `Nat`: none of the embedded code paths
perform arithmetic that can overflow (the only arithmetic is list lengths and lookups).
-/

set_option autoImplicit false

namespace Discv5

/-! ## Receive pipeline: embedding of `src/socket/recv.rs` -/

/-- Socket addresses are opaque keys; only equality is used by the embedded code. -/
abbrev SocketAddr := Nat

/-- The constant `pub(crate) const MAX_PACKET_SIZE: usize = 1280;` (recv.rs line 15). -/
def MAX_PACKET_SIZE : Nat := 1280

/-- Opaque decoded transport packet. The real `Packet` lives in `packet.rs`, outside the
sampled sources; the receive pipeline only carries it around, so it is opaque here. -/
structure Packet where
  tag : Nat
deriving DecidableEq, Repr

/-- The object sent back by the recv handler (recv.rs lines 18-23). -/
structure InboundPacket where
  src : SocketAddr
  packet : Packet
deriving DecidableEq, Repr

/-- State of the recv handler task (recv.rs lines 35-51), parametrised by the filter's
state type `σ` (the filter implementation is outside the sampled sources).
The bounded mpsc channel to the packet handler is modelled by the trace `sends` of
messages pushed into it plus a `handler_closed` flag (a send on a closed channel errors
and the error is swallowed by `unwrap_or_else(|_| ())`, recv.rs line 126). -/
structure RecvHandler (σ : Type) where
  expected_responses : List (SocketAddr × Nat)
  filter : σ
  recv_buffer : List Nat
  whoareyou_magic : List Nat
  handler_closed : Bool
  sends : List InboundPacket
deriving DecidableEq, Repr

/-- The fate of one inbound datagram inside `handle_inbound`: dropped by the first filter
stage, dropped on decode failure, dropped by the second filter stage, or delivered to the
handler channel. -/
inductive InboundOutcome where
  | filteredInitial
  | decodeFailed
  | filteredFinal
  | delivered (p : InboundPacket)
deriving DecidableEq, Repr

/-- Embedding of `RecvHandler::handle_inbound` (recv.rs lines 98-128).

`ip` is `Filter::initial_pass`, `fp` is `Filter::final_pass` (both may mutate the filter
state, hence `Bool × σ`), `decode` is `Packet::decode`; all three live outside the
sampled sources and are abstract parameters.

`permitted` is `self.expected_responses.read().get(&src).is_some()`, computed once
(recv.rs line 101) and reused in both filter guards. Rust's `&&` short-circuits, so when
`permitted` holds neither filter stage runs and the filter state is untouched; this is
modelled by the `if permitted` branches that skip the calls to `ip` / `fp`. -/
def handle_inbound {σ : Type}
    (ip : σ → SocketAddr → Bool × σ)
    (fp : σ → SocketAddr → Packet → Bool × σ)
    (decode : List Nat → List Nat → Option Packet)
    (h : RecvHandler σ) (src : SocketAddr) (length : Nat) :
    RecvHandler σ × InboundOutcome :=
  let permitted : Bool := (h.expected_responses.lookup src).isSome
  let step1 : Bool × σ :=
    if permitted then (false, h.filter)
    else
      let r := ip h.filter src
      (!r.1, r.2)
  if step1.1 then ({ h with filter := step1.2 }, InboundOutcome.filteredInitial)
  else
    let h1 : RecvHandler σ := { h with filter := step1.2 }
    match decode (h1.recv_buffer.take length) h1.whoareyou_magic with
    | none => (h1, InboundOutcome.decodeFailed)
    | some packet =>
      let step2 : Bool × σ :=
        if permitted then (false, h1.filter)
        else
          let r := fp h1.filter src packet
          (!r.1, r.2)
      if step2.1 then ({ h1 with filter := step2.2 }, InboundOutcome.filteredFinal)
      else
        let h2 : RecvHandler σ := { h1 with filter := step2.2 }
        let inbound : InboundPacket := ⟨src, packet⟩
        let h3 : RecvHandler σ :=
          if h2.handler_closed then h2
          else { h2 with sends := h2.sends ++ [inbound] }
        (h3, InboundOutcome.delivered inbound)

/-- Model of `self.recv.recv_from(&mut self.recv_buffer)` (recv.rs line 85): a UDP
receive writes the datagram into the fixed-size buffer, truncating it to the buffer's
size, and returns the number of bytes written; bytes past the written prefix keep their
previous contents. -/
def recv_from (datagram : List Nat) (buffer : List Nat) : Nat × List Nat :=
  let written := min datagram.length MAX_PACKET_SIZE
  (written, datagram.take MAX_PACKET_SIZE ++ buffer.drop written)

/-- The events the `tokio::select!` in `RecvHandler::start` (recv.rs lines 82-94) can
wake on: an inbound datagram, or the exit signal firing. -/
inductive RecvEvent where
  | datagram (src : SocketAddr) (data : List Nat)
  | exitSignal
deriving DecidableEq, Repr

/-- Embedding of `RecvHandler::start` (recv.rs lines 82-94) over a stream of
events: on a datagram, receive it into the buffer and run `handle_inbound`; on the exit
signal, return immediately. An exhausted stream also ends the run. -/
def start {σ : Type}
    (ip : σ → SocketAddr → Bool × σ)
    (fp : σ → SocketAddr → Packet → Bool × σ)
    (decode : List Nat → List Nat → Option Packet) :
    RecvHandler σ → List RecvEvent → RecvHandler σ
  | h, [] => h
  | h, (RecvEvent.exitSignal :: _) => h
  | h, (RecvEvent.datagram src data :: rest) =>
    let r := recv_from data h.recv_buffer
    let h1 : RecvHandler σ := { h with recv_buffer := r.2 }
    start ip fp decode (handle_inbound ip fp decode h1 src r.1).1 rest

/-! ## Service loop data model

`service.rs` and `kbucket.rs` are not among the sampled sources; only their test
(`src/service/test.rs`) is. The data types below follow the names the test uses
(`NodeStatus`, `ActiveRequest`, `rpc::Response`, `rpc::ResponseBody::Ping`, `QueryId`)
and the spec's data model (section 3); `handle_rpc_response` is modelled from the spec. -/

/-- Node identifiers are opaque fixed-width keys; only equality is used here. -/
abbrev NodeId := Nat

/-- The `kbucket::NodeStatus` type as used by the test (Connected / Disconnected). -/
inductive NodeStatus where
  | Connected
  | Disconnected
deriving DecidableEq, Repr

/-- A peer contact as carried by an `ActiveRequest` (`NodeContact::Enr` in the test):
the peer's node identifier plus the cached record's sequence number. -/
structure NodeContact where
  node_id : NodeId
  enr_seq : Nat
deriving DecidableEq, Repr

/-- The `QueryId(u64)` newtype: identifies one running iterative lookup. -/
abbrev QueryId := Nat

/-- The `rpc::RequestBody` type as used by the test (`Ping { enr_seq }`); `FindNode` stands for
the lookup-class requests the spec mentions. -/
inductive RequestBody where
  | Ping (enr_seq : Nat)
  | FindNode (distance : Nat)
deriving DecidableEq, Repr

/-- The `rpc::ResponseBody` type as used by the test (`Ping { enr_seq, ip, port }`); `Nodes`
stands for the discovered-peer responses the spec mentions. -/
inductive ResponseBody where
  | Ping (enr_seq : Nat) (ip : Nat) (port : Nat)
  | Nodes (total : Nat) (nodes : List NodeContact)
deriving DecidableEq, Repr

/-- The `rpc::Response { id, body }` record as constructed by the test. -/
structure Response where
  id : Nat
  body : ResponseBody
deriving DecidableEq, Repr

/-- The `service::ActiveRequest` record as constructed by the test: destination contact, outbound
request body, optional owning query, optional one-shot completion notifier (the notifier
is modelled by an opaque identifier). -/
structure ActiveRequest where
  contact : NodeContact
  request_body : RequestBody
  query_id : Option QueryId
  callback : Option Nat
deriving DecidableEq, Repr

/-- Trace of the further effects the spec prescribes for a matched response: a scheduled
record refresh, peers fed to the owning query, a fulfilled completion notifier. -/
inductive ServiceEvent where
  | refreshScheduled (peer : NodeId)
  | queryInformed (q : QueryId) (nodes : List NodeContact)
  | notifierFulfilled (cb : Nat) (r : Response)
deriving DecidableEq, Repr

/-- The service-loop state the claims touch: the routing table (`kbuckets`, an
association list of node identifier to connection status, the spec's invariant being
that a node identifier appears at most once), the request tracker (`active_requests`,
keyed by the locally generated request identifier), and the trace of emitted effects. -/
structure Service where
  kbuckets : List (NodeId × NodeStatus)
  active_requests : List (Nat × ActiveRequest)
  events : List ServiceEvent
deriving DecidableEq, Repr

/-- Remove the first entry with the given key from the tracker; with unique keys this
is exactly the map's `remove(id)`. -/
def removeKey (id : Nat) : List (Nat × ActiveRequest) → List (Nat × ActiveRequest)
  | [] => []
  | e :: rest => if e.1 = id then rest else e :: removeKey id rest

/-- The `update-status(key, status)` operation of the spec's Routing Table contract
(section 4.1):
set the status of every entry for `nid` (at most one, by the table invariant), leaving
the table unchanged when `nid` is absent. -/
def update_status (kb : List (NodeId × NodeStatus)) (nid : NodeId) (st : NodeStatus) :
    List (NodeId × NodeStatus) :=
  kb.map fun e => if e.1 = nid then (e.1, st) else e

/-- Modelled from the spec: `Service::handle_rpc_response` — `service.rs` is not among
the sampled sources, only its test is. Per the spec (sections 4.2 and 4.5): look up the
matching ActiveRequest purely by the response's request identifier; if absent, drop; if
present, remove it from the tracker, update the Routing Table status of the responding
peer to Connected, and then: if the response is a liveness confirmation carrying a
sequence number newer than the cached record, schedule a record refresh; if it reports
discovered peers, feed them to the owning query (if any); if a completion notifier is
attached, fulfill it with the response. -/
def handle_rpc_response (s : Service) (r : Response) : Service :=
  match s.active_requests.lookup r.id with
  | none => s
  | some ar =>
    let tracker := removeKey r.id s.active_requests
    let kb := update_status s.kbuckets ar.contact.node_id NodeStatus.Connected
    let ev1 : List ServiceEvent :=
      match r.body with
      | ResponseBody.Ping seq _ _ =>
        if ar.contact.enr_seq < seq then [ServiceEvent.refreshScheduled ar.contact.node_id]
        else []
      | ResponseBody.Nodes _ nodes =>
        match ar.query_id with
        | some q => [ServiceEvent.queryInformed q nodes]
        | none => []
    let ev2 : List ServiceEvent :=
      match ar.callback with
      | some cb => [ServiceEvent.notifierFulfilled cb r]
      | none => []
    { kbuckets := kb, active_requests := tracker, events := s.events ++ ev1 ++ ev2 }

/-! ### The scenario of `test_updating_connection_on_ping` (src/service/test.rs) -/

/-- The node identifier of the test's peer `enr2` (P). -/
def test_node_id : NodeId := 2

/-- The test's service state: a routing table seeded with exactly P, Disconnected, and a
fake in-flight request keyed 1 bound to P (owning query `QueryId(1)`, no callback). -/
def test_service : Service :=
  { kbuckets := [(test_node_id, NodeStatus.Disconnected)]
    active_requests :=
      [(1, { contact := { node_id := test_node_id, enr_seq := 2 }
             request_body := RequestBody.Ping 2
             query_id := some 1
             callback := none })]
    events := [] }

/-- The test's response: `Response { id: 1, body: Ping { enr_seq: 2, ip, port: 10002 } }`. -/
def test_response : Response :=
  { id := 1, body := ResponseBody.Ping 2 0 10002 }

/-- The claim's variant of the test scenario: identical, except the in-flight request
has no owning query (the test source itself sets `query_id: Some(QueryId(1))`). -/
def test_service_no_query : Service :=
  { kbuckets := [(test_node_id, NodeStatus.Disconnected)]
    active_requests :=
      [(1, { contact := { node_id := test_node_id, enr_seq := 2 }
             request_body := RequestBody.Ping 2
             query_id := none
             callback := none })]
    events := [] }

/-- A concrete in-flight request used to exercise the matched-response path: bound to
peer 7, standalone (no owning query), with a completion notifier attached. -/
def sample_request : ActiveRequest :=
  { contact := { node_id := 7, enr_seq := 2 }
    request_body := RequestBody.Ping 2
    query_id := none
    callback := some 4 }

/-- A concrete service state whose peer 7 is already Connected and whose tracker holds
exactly `sample_request` under key 1. -/
def sample_service : Service :=
  { kbuckets := [(7, NodeStatus.Connected)]
    active_requests := [(1, sample_request)]
    events := [] }

/-- A concrete liveness response matching `sample_request` by identifier. -/
def sample_response : Response := { id := 1, body := ResponseBody.Ping 3 0 9000 }

/-! ## Error taxonomy: embedding of `src/error.rs` -/

/-- Opaque stand-in for `rlp::DecoderError` (external crate). -/
structure DecoderError where
  code : Nat
deriving DecidableEq, Repr

/-- The `Discv5Error` enum (error.rs lines 3-22), constructor for constructor; payload types are
collapsed to `String` / opaque codes since only the variant vocabulary matters here. -/
inductive Discv5Error where
  | InvalidEnr
  | UnknownPublicKey
  | KeyTypeNotSupported (s : String)
  | KeyDerivationFailed
  | InvalidRemotePublicKey
  | InvalidSecretKey
  | InvalidSignature
  | ServiceChannelClosed
  | ServiceNotStarted
  | ServiceAlreadyStarted
  | SessionNotEstablished
  | RLPError (e : DecoderError)
  | EncryptionFail (s : String)
  | DecryptionFailed (s : String)
  | Custom (s : String)
  | Error (s : String)
  | IoError (code : Nat)
deriving DecidableEq, Repr

/-- The `RequestError` enum (error.rs lines 30-41), constructor for constructor. -/
inductive RequestError where
  | Timeout
  | ServiceNotStarted
  | SelfRequest
  | ChannelFailed (s : String)
  | InvalidEnr (s : String)
  | InvalidRemoteEnr
  | InvalidRemotePacket
  | EncryptionFailed (s : String)
  | InvalidMultiaddr (s : String)
deriving DecidableEq, Repr

/-- The `QueryError` enum (error.rs lines 43-50), constructor for constructor. -/
inductive QueryError where
  | ServiceNotStarted
  | ChannelFailed (s : String)
  | InvalidEnr (s : String)
  | EncryptionFailed (s : String)
  | InvalidMultiaddr (s : String)
deriving DecidableEq, Repr

/-- The variant name of a `Discv5Error` value, as the derived `Debug` prints it. -/
def Discv5Error.variantName : Discv5Error → String
  | .InvalidEnr => "InvalidEnr"
  | .UnknownPublicKey => "UnknownPublicKey"
  | .KeyTypeNotSupported _ => "KeyTypeNotSupported"
  | .KeyDerivationFailed => "KeyDerivationFailed"
  | .InvalidRemotePublicKey => "InvalidRemotePublicKey"
  | .InvalidSecretKey => "InvalidSecretKey"
  | .InvalidSignature => "InvalidSignature"
  | .ServiceChannelClosed => "ServiceChannelClosed"
  | .ServiceNotStarted => "ServiceNotStarted"
  | .ServiceAlreadyStarted => "ServiceAlreadyStarted"
  | .SessionNotEstablished => "SessionNotEstablished"
  | .RLPError _ => "RLPError"
  | .EncryptionFail _ => "EncryptionFail"
  | .DecryptionFailed _ => "DecryptionFailed"
  | .Custom _ => "Custom"
  | .Error _ => "Error"
  | .IoError _ => "Io"

/-- The variant name of a `RequestError` value, as the derived `Debug` prints it. -/
def RequestError.variantName : RequestError → String
  | .Timeout => "Timeout"
  | .ServiceNotStarted => "ServiceNotStarted"
  | .SelfRequest => "SelfRequest"
  | .ChannelFailed _ => "ChannelFailed"
  | .InvalidEnr _ => "InvalidEnr"
  | .InvalidRemoteEnr => "InvalidRemoteEnr"
  | .InvalidRemotePacket => "InvalidRemotePacket"
  | .EncryptionFailed _ => "EncryptionFailed"
  | .InvalidMultiaddr _ => "InvalidMultiaddr"

/-- The variant name of a `QueryError` value, as the derived `Debug` prints it. -/
def QueryError.variantName : QueryError → String
  | .ServiceNotStarted => "ServiceNotStarted"
  | .ChannelFailed _ => "ChannelFailed"
  | .InvalidEnr _ => "InvalidEnr"
  | .EncryptionFailed _ => "EncryptionFailed"
  | .InvalidMultiaddr _ => "InvalidMultiaddr"

/-- The complete variant vocabulary of `Discv5Error` (error.rs lines 3-22). -/
def Discv5Error.variantNames : List String :=
  ["InvalidEnr", "UnknownPublicKey", "KeyTypeNotSupported", "KeyDerivationFailed",
   "InvalidRemotePublicKey", "InvalidSecretKey", "InvalidSignature",
   "ServiceChannelClosed", "ServiceNotStarted", "ServiceAlreadyStarted",
   "SessionNotEstablished", "RLPError", "EncryptionFail", "DecryptionFailed",
   "Custom", "Error", "Io"]

/-- The complete variant vocabulary of `RequestError` (error.rs lines 30-41). -/
def RequestError.variantNames : List String :=
  ["Timeout", "ServiceNotStarted", "SelfRequest", "ChannelFailed", "InvalidEnr",
   "InvalidRemoteEnr", "InvalidRemotePacket", "EncryptionFailed", "InvalidMultiaddr"]

/-- The complete variant vocabulary of `QueryError` (error.rs lines 43-50). -/
def QueryError.variantNames : List String :=
  ["ServiceNotStarted", "ChannelFailed", "InvalidEnr", "EncryptionFailed",
   "InvalidMultiaddr"]

/-! ## Theorems -/

/-- Helper: when the source has an entry in the expected-response table, neither filter
stage runs; the outcome is decided by `decode` alone. -/
theorem handle_inbound_permitted {σ : Type}
    (ip : σ → SocketAddr → Bool × σ) (fp : σ → SocketAddr → Packet → Bool × σ)
    (decode : List Nat → List Nat → Option Packet)
    (h : RecvHandler σ) (src : SocketAddr) (length n : Nat)
    (hexp : h.expected_responses.lookup src = some n) :
    handle_inbound ip fp decode h src length =
      match decode (h.recv_buffer.take length) h.whoareyou_magic with
      | none => (h, InboundOutcome.decodeFailed)
      | some packet =>
        ((if h.handler_closed then h
          else { h with sends := h.sends ++ [⟨src, packet⟩] }),
         InboundOutcome.delivered ⟨src, packet⟩) := by
  unfold handle_inbound
  simp only [hexp, Option.isSome_some, if_true]
  cases hd : decode (h.recv_buffer.take length) h.whoareyou_magic <;> simp [hd]

/-- Helper: for a source with no expected-response entry that fails `initial_pass`,
the datagram is dropped at the first stage with only the filter state advanced. -/
theorem handle_inbound_initial_filtered {σ : Type}
    (ip : σ → SocketAddr → Bool × σ) (fp : σ → SocketAddr → Packet → Bool × σ)
    (decode : List Nat → List Nat → Option Packet)
    (h : RecvHandler σ) (src : SocketAddr) (length : Nat) (f1 : σ)
    (hexp : h.expected_responses.lookup src = none)
    (hip : ip h.filter src = (false, f1)) :
    handle_inbound ip fp decode h src length =
      ({ h with filter := f1 }, InboundOutcome.filteredInitial) := by
  unfold handle_inbound
  simp [hexp, hip]

/-- Helper: for a source with no expected-response entry that passes `initial_pass`, a
decode failure drops the datagram with only the filter state advanced. -/
theorem handle_inbound_initial_passed_decode_failed {σ : Type}
    (ip : σ → SocketAddr → Bool × σ) (fp : σ → SocketAddr → Packet → Bool × σ)
    (decode : List Nat → List Nat → Option Packet)
    (h : RecvHandler σ) (src : SocketAddr) (length : Nat) (f1 : σ)
    (hexp : h.expected_responses.lookup src = none)
    (hip : ip h.filter src = (true, f1))
    (hdec : decode (h.recv_buffer.take length) h.whoareyou_magic = none) :
    handle_inbound ip fp decode h src length =
      ({ h with filter := f1 }, InboundOutcome.decodeFailed) := by
  unfold handle_inbound
  simp [hexp, hip, hdec]

/-- Claim C3: for every inbound datagram whose source address has an entry in the
expected-response table, both filter stages are bypassed — the datagram is admitted past
`initial_pass` regardless of rate or blacklist (for every `initial_pass` behaviour) and
past `final_pass` regardless of decoded packet type (for every `final_pass` behaviour);
the only remaining way it is dropped is decode failure. -/
theorem c3_expected_source_bypasses_both_filter_stages {σ : Type}
    (ip : σ → SocketAddr → Bool × σ) (fp : σ → SocketAddr → Packet → Bool × σ)
    (decode : List Nat → List Nat → Option Packet)
    (h : RecvHandler σ) (src : SocketAddr) (length n : Nat)
    (hexp : h.expected_responses.lookup src = some n) :
    handle_inbound ip fp decode h src length =
      match decode (h.recv_buffer.take length) h.whoareyou_magic with
      | none => (h, InboundOutcome.decodeFailed)
      | some packet =>
        ((if h.handler_closed then h
          else { h with sends := h.sends ++ [⟨src, packet⟩] }),
         InboundOutcome.delivered ⟨src, packet⟩) :=
  handle_inbound_permitted ip fp decode h src length n hexp

/-- Witness for C3 at a concrete input: source 5 has entry 2; a decoding packet is
delivered untouched by two mutating filter stages. -/
theorem c3_witness :
    (([(5, 2)] : List (SocketAddr × Nat)).lookup 5 = some 2) ∧
    handle_inbound (fun f _ => (false, f + 1)) (fun f _ _ => (false, f + 1))
        (fun _ _ => some ⟨7⟩)
        ⟨[(5, 2)], (0 : Nat), [1, 2, 3], [9], false, []⟩ 5 3 =
      (⟨[(5, 2)], (0 : Nat), [1, 2, 3], [9], false, [⟨5, ⟨7⟩⟩]⟩,
       InboundOutcome.delivered ⟨5, ⟨7⟩⟩) := by
  refine ⟨rfl, ?_⟩
  rw [c3_expected_source_bypasses_both_filter_stages (fun f _ => (false, f + 1))
    (fun f _ _ => (false, f + 1)) (fun _ _ => some ⟨7⟩)
    ⟨[(5, 2)], (0 : Nat), [1, 2, 3], [9], false, []⟩ 5 3 2 rfl]
  rfl

/-- Claim C4: for every inbound datagram whose source has no expected-response entry and
for which `initial_pass` returns false, the datagram is dropped before `Packet::decode`
is ever invoked — the result is `filteredInitial` with only the filter state advanced
and, for every pair of decode functions, the result is the same, so no decode cost is
spent on a filtered datagram. -/
theorem c4_filtered_source_dropped_before_decode {σ : Type}
    (ip : σ → SocketAddr → Bool × σ) (fp : σ → SocketAddr → Packet → Bool × σ)
    (decode decode2 : List Nat → List Nat → Option Packet)
    (h : RecvHandler σ) (src : SocketAddr) (length : Nat) (f1 : σ)
    (hexp : h.expected_responses.lookup src = none)
    (hip : ip h.filter src = (false, f1)) :
    handle_inbound ip fp decode h src length =
      ({ h with filter := f1 }, InboundOutcome.filteredInitial) ∧
    handle_inbound ip fp decode h src length =
      handle_inbound ip fp decode2 h src length := by
  have h1 := handle_inbound_initial_filtered ip fp decode h src length f1 hexp hip
  have h2 := handle_inbound_initial_filtered ip fp decode2 h src length f1 hexp hip
  exact ⟨h1, h1.trans h2.symm⟩

/-- Witness for C4 at a concrete input: the table is empty, `initial_pass` denies, and
the datagram is dropped at the first stage even though decode would have succeeded. -/
theorem c4_witness :
    (([] : List (SocketAddr × Nat)).lookup 5 = none) ∧
    ((fun (f : Nat) (_ : SocketAddr) => (false, f + 1)) 0 5 = (false, 1)) ∧
    handle_inbound (fun f _ => (false, f + 1)) (fun f _ _ => (true, f))
        (fun _ _ => some ⟨7⟩) ⟨[], (0 : Nat), [1, 2, 3], [9], false, []⟩ 5 3 =
      (⟨[], (1 : Nat), [1, 2, 3], [9], false, []⟩, InboundOutcome.filteredInitial) := by
  refine ⟨rfl, rfl, ?_⟩
  rw [(c4_filtered_source_dropped_before_decode (fun f _ => (false, f + 1))
    (fun f _ _ => (true, f)) (fun _ _ => some ⟨7⟩) (fun _ _ => none)
    ⟨[], (0 : Nat), [1, 2, 3], [9], false, []⟩ 5 3 1 rfl rfl).1]

/-- Claim C5: every inbound datagram whose payload fails `Packet::decode` is dropped
silently — `handle_inbound` pushes nothing onto the handler channel and never reaches
the delivered outcome (and, the embedded function being total with no error component,
no error is surfaced to any caller and no reply is sent: the recv handler owns no send
half at all). -/
theorem c5_decode_failure_dropped_silently {σ : Type}
    (ip : σ → SocketAddr → Bool × σ) (fp : σ → SocketAddr → Packet → Bool × σ)
    (decode : List Nat → List Nat → Option Packet)
    (h : RecvHandler σ) (src : SocketAddr) (length : Nat)
    (hdec : decode (h.recv_buffer.take length) h.whoareyou_magic = none) :
    (handle_inbound ip fp decode h src length).1.sends = h.sends ∧
    ∀ p, (handle_inbound ip fp decode h src length).2 ≠ InboundOutcome.delivered p := by
  cases hexp : h.expected_responses.lookup src with
  | some n =>
    rw [handle_inbound_permitted ip fp decode h src length n hexp, hdec]
    exact ⟨rfl, fun p => by simp⟩
  | none =>
    rcases hip : ip h.filter src with ⟨b, f1⟩
    cases b with
    | false =>
      rw [handle_inbound_initial_filtered ip fp decode h src length f1 hexp hip]
      exact ⟨rfl, fun p => by simp⟩
    | true =>
      rw [handle_inbound_initial_passed_decode_failed ip fp decode h src length f1 hexp
        hip hdec]
      exact ⟨rfl, fun p => by simp⟩

/-- Witness for C5 at a concrete input: a decode that always fails; nothing is pushed
downstream and the outcome is not a delivery. -/
theorem c5_witness :
    ((fun (_ : List Nat) (_ : List Nat) => (none : Option Packet))
      (([1, 2, 3] : List Nat).take 3) [9] = none) ∧
    (handle_inbound (fun (f : Nat) _ => (true, f)) (fun f _ _ => (true, f))
      (fun _ _ => none) ⟨[(5, 2)], (0 : Nat), [1, 2, 3], [9], false, []⟩ 5 3).1.sends =
      [] ∧
    (handle_inbound (fun (f : Nat) _ => (true, f)) (fun f _ _ => (true, f))
      (fun _ _ => none) ⟨[(5, 2)], (0 : Nat), [1, 2, 3], [9], false, []⟩ 5 3).2 ≠
      InboundOutcome.delivered ⟨5, ⟨7⟩⟩ := by
  refine ⟨rfl, ?_, ?_⟩
  · exact (c5_decode_failure_dropped_silently (fun f _ => (true, f)) (fun f _ _ => (true, f))
      (fun _ _ => none) ⟨[(5, 2)], (0 : Nat), [1, 2, 3], [9], false, []⟩ 5 3 rfl).1
  · exact (c5_decode_failure_dropped_silently (fun f _ => (true, f)) (fun f _ _ => (true, f))
      (fun _ _ => none) ⟨[(5, 2)], (0 : Nat), [1, 2, 3], [9], false, []⟩ 5 3 rfl).2 _

/-- Claim C7: once the recv loop observes the exit signal it returns immediately — the
state it returns is the state at that instant, and any events queued after the exit
signal contribute no side effects at all (no sends, no filter-state mutation): the run
over `pre ++ exitSignal :: post` equals the run over `pre ++ [exitSignal]` for every
`post`. -/
theorem c7_exit_signal_stops_loop {σ : Type}
    (ip : σ → SocketAddr → Bool × σ) (fp : σ → SocketAddr → Packet → Bool × σ)
    (decode : List Nat → List Nat → Option Packet)
    (h : RecvHandler σ) (pre post : List RecvEvent) :
    start ip fp decode h (RecvEvent.exitSignal :: post) = h ∧
    start ip fp decode h (pre ++ RecvEvent.exitSignal :: post) =
      start ip fp decode h (pre ++ [RecvEvent.exitSignal]) := by
  refine ⟨rfl, ?_⟩
  induction pre generalizing h with
  | nil => rfl
  | cons e rest ih =>
    cases e with
    | exitSignal => rfl
    | datagram src data =>
      simp only [List.cons_append, start]
      exact ih _

/-- Claim C9: a source whose expected-response entry has counter value 0 still bypasses
both filter stages — the bypass condition is presence of the map entry, not a nonzero
counter: the run is identical for every pair of filter functions (they are never
consulted), and the outcome is never a filtered one; the permit decision is the single
`isSome` test on the map lookup. -/
theorem c9_zero_counter_entry_bypasses {σ : Type}
    (ip ip2 : σ → SocketAddr → Bool × σ) (fp fp2 : σ → SocketAddr → Packet → Bool × σ)
    (decode : List Nat → List Nat → Option Packet)
    (h : RecvHandler σ) (src : SocketAddr) (length : Nat)
    (hexp : h.expected_responses.lookup src = some 0) :
    handle_inbound ip fp decode h src length = handle_inbound ip2 fp2 decode h src length ∧
    (handle_inbound ip fp decode h src length).2 ≠ InboundOutcome.filteredInitial ∧
    (handle_inbound ip fp decode h src length).2 ≠ InboundOutcome.filteredFinal := by
  have h1 := handle_inbound_permitted ip fp decode h src length 0 hexp
  have h2 := handle_inbound_permitted ip2 fp2 decode h src length 0 hexp
  refine ⟨h1.trans h2.symm, ?_, ?_⟩ <;>
  · rw [h1]
    cases decode (h.recv_buffer.take length) h.whoareyou_magic <;> simp

/-- Witness for C9 at a concrete input: entry (5, 0); a denying filter pair and an
admitting filter pair give identical results, and the packet is delivered. -/
theorem c9_witness :
    (([(5, 0)] : List (SocketAddr × Nat)).lookup 5 = some 0) ∧
    handle_inbound (fun (f : Nat) _ => (false, f)) (fun f _ _ => (false, f))
        (fun _ _ => some ⟨7⟩) ⟨[(5, 0)], (0 : Nat), [1, 2, 3], [9], false, []⟩ 5 3 =
      handle_inbound (fun f _ => (true, f)) (fun f _ _ => (true, f))
        (fun _ _ => some ⟨7⟩) ⟨[(5, 0)], (0 : Nat), [1, 2, 3], [9], false, []⟩ 5 3 ∧
    (handle_inbound (fun f _ => (false, f)) (fun f _ _ => (false, f))
        (fun _ _ => some ⟨7⟩) ⟨[(5, 0)], (0 : Nat), [1, 2, 3], [9], false, []⟩ 5 3).2 ≠
      InboundOutcome.filteredInitial := by
  refine ⟨rfl, ?_, ?_⟩
  · exact (c9_zero_counter_entry_bypasses (fun f _ => (false, f)) (fun f _ => (true, f))
      (fun f _ _ => (false, f)) (fun f _ _ => (true, f)) (fun _ _ => some ⟨7⟩)
      ⟨[(5, 0)], (0 : Nat), [1, 2, 3], [9], false, []⟩ 5 3 rfl).1
  · exact (c9_zero_counter_entry_bypasses (fun f _ => (false, f)) (fun f _ => (true, f))
      (fun f _ _ => (false, f)) (fun f _ _ => (true, f)) (fun _ _ => some ⟨7⟩)
      ⟨[(5, 0)], (0 : Nat), [1, 2, 3], [9], false, []⟩ 5 3 rfl).2.1

/-- Claim C10: for every received datagram the length handed to `handle_inbound` is at
most `MAX_PACKET_SIZE` (1280); the slice `recv_buffer[..length]` is therefore in bounds
(the buffer keeps length 1280 and `length` never exceeds it), and an oversized datagram
is truncated to the buffer size before any decoding: the slice equals the datagram's
first 1280 bytes. -/
theorem c10_recv_from_length_in_bounds (datagram buffer : List Nat)
    (hbuf : buffer.length = MAX_PACKET_SIZE) :
    (recv_from datagram buffer).1 ≤ MAX_PACKET_SIZE ∧
    (recv_from datagram buffer).2.length = MAX_PACKET_SIZE ∧
    (recv_from datagram buffer).1 ≤ (recv_from datagram buffer).2.length ∧
    (recv_from datagram buffer).2.take (recv_from datagram buffer).1 =
      datagram.take MAX_PACKET_SIZE := by
  have h1 : min datagram.length MAX_PACKET_SIZE ≤ MAX_PACKET_SIZE := Nat.min_le_right _ _
  have hA : (datagram.take MAX_PACKET_SIZE).length = min datagram.length MAX_PACKET_SIZE := by
    simp [Nat.min_comm]
  have hlen2 : (datagram.take MAX_PACKET_SIZE ++
      buffer.drop (min datagram.length MAX_PACKET_SIZE)).length = MAX_PACKET_SIZE := by
    simp [hbuf]
    omega
  refine ⟨h1, hlen2, ?_, List.take_left' hA⟩
  rw [show (recv_from datagram buffer).2 = datagram.take MAX_PACKET_SIZE ++
    buffer.drop (min datagram.length MAX_PACKET_SIZE) from rfl, hlen2]
  exact h1

/-- Witness for C10 at a concrete input: a 3-byte datagram into a fresh 1280-byte
buffer. -/
theorem c10_witness :
    (List.replicate MAX_PACKET_SIZE (0 : Nat)).length = MAX_PACKET_SIZE ∧
    (recv_from [1, 2, 3] (List.replicate MAX_PACKET_SIZE 0)).1 ≤ MAX_PACKET_SIZE ∧
    (recv_from [1, 2, 3] (List.replicate MAX_PACKET_SIZE 0)).2.take
        (recv_from [1, 2, 3] (List.replicate MAX_PACKET_SIZE 0)).1 =
      ([1, 2, 3] : List Nat).take MAX_PACKET_SIZE := by
  have hbuf : (List.replicate MAX_PACKET_SIZE (0 : Nat)).length = MAX_PACKET_SIZE := by
    simp
  exact ⟨hbuf, (c10_recv_from_length_in_bounds [1, 2, 3] _ hbuf).1,
    (c10_recv_from_length_in_bounds [1, 2, 3] _ hbuf).2.2.2⟩

/-- Helper: updating a key that is present in the routing table makes its looked-up
status the new one (every entry for the key is rewritten, and lookup returns the
first). -/
theorem lookup_update_status (kb : List (NodeId × NodeStatus)) (nid : NodeId)
    (st0 st : NodeStatus) (hmem : (nid, st0) ∈ kb) :
    (update_status kb nid st).lookup nid = some st := by
  induction kb with
  | nil => simp at hmem
  | cons e rest ih =>
    rcases e with ⟨k, v⟩
    by_cases he : k = nid
    · subst he
      simp [update_status, List.lookup_cons]
    · have h : (nid, st0) ∈ rest := by
        rcases List.mem_cons.mp hmem with h | h
        · exact absurd (congrArg Prod.fst h).symm he
        · exact h
      have hrec := ih h
      have hk : (nid == k) = false := by simp [Ne.symm he]
      simp only [update_status] at hrec
      simpa [update_status, List.lookup_cons, he, hk] using hrec

/-- Helper: removing a tracked key shortens the tracker by exactly one entry. -/
theorem length_removeKey (l : List (Nat × ActiveRequest)) (id : Nat) (ar : ActiveRequest)
    (hl : l.lookup id = some ar) :
    (removeKey id l).length + 1 = l.length := by
  induction l with
  | nil => simp at hl
  | cons e rest ih =>
    by_cases he : e.1 = id
    · simp [removeKey, he]
    · rcases e with ⟨k, v⟩
      simp only at he
      rw [List.lookup_cons] at hl
      have hk : (id == k) = false := by simp [Ne.symm he]
      rw [hk] at hl
      simp only [removeKey, he, if_false, List.length_cons]
      rw [ih hl]

/-- Helper: with unique tracker keys, a removed key no longer resolves. -/
theorem lookup_removeKey_eq_none (l : List (Nat × ActiveRequest)) (id : Nat)
    (hnodup : (l.map Prod.fst).Nodup) :
    (removeKey id l).lookup id = none := by
  induction l with
  | nil => simp [removeKey]
  | cons e rest ih =>
    rcases e with ⟨k, v⟩
    simp only [List.map_cons, List.nodup_cons] at hnodup
    by_cases he : k = id
    · subst he
      simp only [removeKey, if_pos rfl]
      rw [List.lookup_eq_none_iff]
      intro p hp
      rw [bne_iff_ne]
      intro hk
      exact hnodup.1 (hk ▸ List.mem_map_of_mem Prod.fst hp)
    · simp only [removeKey, he, if_false]
      rw [List.lookup_cons]
      have hk : (id == k) = false := by simp [Ne.symm he]
      rw [hk]
      exact ih hnodup.2

/-- Claim C1: for every successfully matched (ActiveRequest, Response) pair — the match
is purely by request identifier — `handle_rpc_response` makes the responding peer's
routing-table status Connected regardless of its prior status, and removes the matched
ActiveRequest from the tracker exactly once (the identifier no longer resolves and the
tracker shrank by exactly one entry). -/
theorem c1_matched_response_promotes_and_removes
    (s : Service) (r : Response) (ar : ActiveRequest) (st : NodeStatus)
    (hmatch : s.active_requests.lookup r.id = some ar)
    (hnodup : (s.active_requests.map Prod.fst).Nodup)
    (hmem : (ar.contact.node_id, st) ∈ s.kbuckets) :
    (handle_rpc_response s r).kbuckets.lookup ar.contact.node_id =
      some NodeStatus.Connected ∧
    (handle_rpc_response s r).active_requests.lookup r.id = none ∧
    (handle_rpc_response s r).active_requests.length + 1 =
      s.active_requests.length := by
  unfold handle_rpc_response
  rw [hmatch]
  refine ⟨?_, ?_, ?_⟩
  · exact lookup_update_status s.kbuckets ar.contact.node_id st NodeStatus.Connected hmem
  · exact lookup_removeKey_eq_none s.active_requests r.id hnodup
  · exact length_removeKey s.active_requests r.id ar hmatch

/-- Witness for C1 at a concrete input: peer 7 is already Connected (prior status
arbitrary), the tracked request keyed 1 matches, and after handling it the peer is
Connected and the tracker is one entry shorter with key 1 gone. -/
theorem c1_witness :
    sample_service.active_requests.lookup sample_response.id = some sample_request ∧
    (sample_service.active_requests.map Prod.fst).Nodup ∧
    (sample_request.contact.node_id, NodeStatus.Connected) ∈ sample_service.kbuckets ∧
    (handle_rpc_response sample_service sample_response).kbuckets.lookup
      sample_request.contact.node_id = some NodeStatus.Connected ∧
    (handle_rpc_response sample_service sample_response).active_requests.lookup
      sample_response.id = none ∧
    (handle_rpc_response sample_service sample_response).active_requests.length + 1 =
      sample_service.active_requests.length := by
  have h1 : sample_service.active_requests.lookup sample_response.id =
      some sample_request := rfl
  have h2 : (sample_service.active_requests.map Prod.fst).Nodup := by
    simp [sample_service]
  have h3 : (sample_request.contact.node_id, NodeStatus.Connected) ∈
      sample_service.kbuckets := by
    simp [sample_service, sample_request]
  have hc := c1_matched_response_promotes_and_removes sample_service sample_response
    sample_request NodeStatus.Connected h1 h2 h3
  exact ⟨h1, h2, h3, hc.1, hc.2.1, hc.2.2⟩

/-- Claim C2: with the routing table seeded with exactly one peer P in Disconnected
status and an in-flight request keyed 1 bound to P with no owning query, handling the
Ping response keyed 1 from P leaves exactly one routing-table entry for P, whose status
is Connected. The same holds for the configuration the test source actually builds,
where the request carries `query_id: Some(QueryId(1))` (the scenario of
`test_updating_connection_on_ping`); the outcome does not depend on the owning query. -/
theorem c2_ping_response_connects_seeded_peer :
    test_service_no_query.kbuckets = [(test_node_id, NodeStatus.Disconnected)] ∧
    (handle_rpc_response test_service_no_query test_response).kbuckets =
      [(test_node_id, NodeStatus.Connected)] ∧
    test_service.kbuckets = [(test_node_id, NodeStatus.Disconnected)] ∧
    (handle_rpc_response test_service test_response).kbuckets =
      [(test_node_id, NodeStatus.Connected)] := by
  exact ⟨rfl, rfl, rfl, rfl⟩

/-- Claim C8 counterexample: no error type of `error.rs` has a `DuplicateId` variant —
the duplicate-identifier condition cannot be surfaced as a `DuplicateId` error. -/
theorem c8_counterexample_no_duplicate_id_variant :
    "DuplicateId" ∉ RequestError.variantNames ∧
    "DuplicateId" ∉ Discv5Error.variantNames ∧
    "DuplicateId" ∉ QueryError.variantNames := by
  decide

/-- Claim C8 (amended): the code's error taxonomy contains no `DuplicateId` variant at
all — every `RequestError`, `Discv5Error` and `QueryError` value carries a different
variant name — so a Request Tracker insert cannot fail with a `DuplicateId` error; the
structural errors the code does define are `ServiceNotStarted` and
`ServiceAlreadyStarted`. -/
theorem c8_amended_duplicate_id_not_in_error_taxonomy :
    (∀ e : RequestError, e.variantName ≠ "DuplicateId") ∧
    (∀ e : Discv5Error, e.variantName ≠ "DuplicateId") ∧
    (∀ e : QueryError, e.variantName ≠ "DuplicateId") ∧
    "ServiceNotStarted" ∈ Discv5Error.variantNames ∧
    "ServiceAlreadyStarted" ∈ Discv5Error.variantNames ∧
    (∀ e : RequestError, e.variantName ∈ RequestError.variantNames) := by
  refine ⟨fun e => ?_, fun e => ?_, fun e => ?_, by decide, by decide, fun e => ?_⟩
  · cases e <;> simp [RequestError.variantName]
  · cases e <;> simp [Discv5Error.variantName]
  · cases e <;> simp [QueryError.variantName]
  · cases e <;> simp [RequestError.variantName, RequestError.variantNames]

end Discv5
